import Mathlib

/-!
Shallow embedding of the `health` package warnable catalog
(`src/health/warnings.go`) of homedepot/tailscale, together with a model of
the warning-state engine described by the specification.  The catalog
definitions below are translated directly from `warnings.go`; the engine
(registration, state store, suppression evaluator, severity aggregator) is
not part of the visible source and is modelled from the specification where
noted.
-/

/-- Modelled from the spec: the `Severity` type of the `health` package is not
under `src/`; the spec describes it as an ordered value from
Low < Medium < High. -/
inductive Severity where
  | low
  | medium
  | high
deriving DecidableEq, Repr

/-- Modelled from the spec: the severity constant `SeverityLow`. -/
def SeverityLow : Severity := Severity.low

/-- Modelled from the spec: the severity constant `SeverityMedium`. -/
def SeverityMedium : Severity := Severity.medium

/-- Modelled from the spec: the severity constant `SeverityHigh`. -/
def SeverityHigh : Severity := Severity.high

/-- Rank of a severity in the order Low < Medium < High, used for sorting and
for the maximum computation of the severity aggregator. -/
def sevRank : Severity → Nat
  | Severity.low => 0
  | Severity.medium => 1
  | Severity.high => 2

/-- Args is the mapping of named string parameters supplied when a warnable
becomes unhealthy (Go `map[string]string`), embedded as an association list. -/
abbrev Args := List (String × String)

/-- Go map indexing `args[k]`: the value stored at `k`, or the empty string
when `k` is absent (Go's zero-value semantics for missing map keys). -/
def argLookup (args : Args) (k : String) : String :=
  (List.lookup k args).getD ""

/-- Modelled from the spec: the argument-key constant for the current version
(the key space is the fixed enumeration of section 6 of the spec). -/
def ArgCurrentVersion : String := "current-version"

/-- Modelled from the spec: the argument-key constant for the available
version. -/
def ArgAvailableVersion : String := "available-version"

/-- Modelled from the spec: the argument-key constant for error text. -/
def ArgError : String := "error-text"

/-- Modelled from the spec: the argument-key constant for a duration. -/
def ArgDuration : String := "duration"

/-- Modelled from the spec: the argument-key constant for a relay (DERP)
region name. -/
def ArgDERPRegionName : String := "relay-region-name"

/-- Modelled from the spec: the argument-key constant for a relay (DERP)
region ID. -/
def ArgDERPRegionID : String := "relay-region-id"

/-- Modelled from the spec: the argument-key constant for a server name. -/
def ArgServerName : String := "server-name"

/-- Modelled from the spec: the argument-key constant for a magicsock
function name. -/
def ArgMagicsockFunctionName : String := "function-name"

/-- Escaping of one character as Go's `fmt` `%q` verb does for the common
cases (backslash, double quote, newline, tab, carriage return). -/
def goQuoteChar (c : Char) : String :=
  if c = '\\' then "\\\\"
  else if c = '"' then "\\\""
  else if c = '\n' then "\\n"
  else if c = '\t' then "\\t"
  else if c = '\r' then "\\r"
  else String.singleton c

/-- Go's `fmt` `%q` verb on a string: the string surrounded by double quotes
with special characters escaped. -/
def goQuote (s : String) : String :=
  "\"" ++ String.join (s.data.map goQuoteChar) ++ "\""

/-- A warnable definition, as in `warnings.go`: code, title, severity, text
(always a function of the args; `StaticMessage` builds the constant case),
dependencies, and the connectivity-impact flag.  `DependsOn` refers to other
warnables by identity, as the Go code does with `[]*Warnable`. -/
inductive Warnable where
  | mk (Code : String) (Title : String) (Severity : Severity)
      (Text : Args → String) (DependsOn : List Warnable)
      (ImpactsConnectivity : Bool) : Warnable

/-- The `Code` field of a warnable. -/
def Warnable.Code : Warnable → String
  | ⟨c, _, _, _, _, _⟩ => c

/-- The `Title` field of a warnable. -/
def Warnable.Title : Warnable → String
  | ⟨_, t, _, _, _, _⟩ => t

/-- The `Severity` field of a warnable. -/
def Warnable.Severity : Warnable → Severity
  | ⟨_, _, s, _, _, _⟩ => s

/-- The `Text` field of a warnable. -/
def Warnable.Text : Warnable → Args → String
  | ⟨_, _, _, f, _, _⟩ => f

/-- The `DependsOn` field of a warnable. -/
def Warnable.DependsOn : Warnable → List Warnable
  | ⟨_, _, _, _, d, _⟩ => d

/-- The `ImpactsConnectivity` field of a warnable. -/
def Warnable.ImpactsConnectivity : Warnable → Bool
  | ⟨_, _, _, _, _, b⟩ => b

/-- Modelled from the spec: `StaticMessage` (declared outside `src/`) wraps a
constant string as a text function that ignores its args. -/
def StaticMessage (s : String) : Args → String := fun _ => s

/-- Modelled from the spec: `Register` (declared outside `src/`) appends the
definition to the process-wide catalog and returns it as the handle; the
catalog itself is embedded below as the list `catalog` of all registered
warnables in registration order. -/
def Register (w : Warnable) : Warnable := w

/-- updateAvailableWarnable is a Warnable that warns the user that an update
is available. -/
def updateAvailableWarnable : Warnable := Register
  ⟨"update-available", "Update available", SeverityLow,
    fun args =>
      "An update from version " ++ argLookup args ArgCurrentVersion ++
      " to " ++ argLookup args ArgAvailableVersion ++
      " is available. Run `tailscale update` or `tailscale set --auto-update` to update.",
    [], false⟩

/-- securityUpdateAvailableWarnable is a Warnable that warns the user that an
important security update is available. -/
def securityUpdateAvailableWarnable : Warnable := Register
  ⟨"security-update-available", "Security update available", SeverityHigh,
    fun args =>
      "An urgent security update from version " ++ argLookup args ArgCurrentVersion ++
      " to " ++ argLookup args ArgAvailableVersion ++
      " is available. Run `tailscale update` or `tailscale set --auto-update` to update now.",
    [], false⟩

/-- unstableWarnable is a Warnable that warns the user that they are using an
unstable version of Tailscale. -/
def unstableWarnable : Warnable := Register
  ⟨"is-using-unstable-version", "Using an unstable version", SeverityLow,
    StaticMessage "This is an unstable version of Tailscale meant for testing and development purposes: please report any bugs to Tailscale.",
    [], false⟩

/-- NetworkStatusWarnable is a Warnable that warns the user that the network
is down. -/
def NetworkStatusWarnable : Warnable := Register
  ⟨"network-status", "Network down", SeverityHigh,
    StaticMessage "Tailscale cannot connect because the network is down. (No network interface is up.)",
    [], true⟩

/-- IPNStateWarnable is a Warnable that warns the user that Tailscale is
stopped. -/
def IPNStateWarnable : Warnable := Register
  ⟨"wantrunning-false", "Not connected to Tailscale", SeverityLow,
    StaticMessage "Tailscale is stopped.",
    [], false⟩

/-- localLogWarnable is a Warnable that warns the user that the local log is
misconfigured. -/
def localLogWarnable : Warnable := Register
  ⟨"local-log-config-error", "Local log misconfiguration", SeverityLow,
    fun args =>
      "The local log is misconfigured: " ++ argLookup args ArgError,
    [], false⟩

/-- LoginStateWarnable is a Warnable that warns the user that they are logged
out, and provides the last login error if available. -/
def LoginStateWarnable : Warnable := Register
  ⟨"login-state", "Logged out", SeverityMedium,
    fun args =>
      if argLookup args ArgError ≠ "" then
        "You are logged out. The last login error was: " ++ argLookup args ArgError
      else
        "You are logged out.",
    [], false⟩

/-- notInMapPollWarnable is a Warnable that warns the user that they cannot
connect to the control server. -/
def notInMapPollWarnable : Warnable := Register
  ⟨"not-in-map-poll", "Cannot connect to control server", SeverityMedium,
    StaticMessage "Cannot connect to the control server (not in map poll). Check your Internet connection.",
    [NetworkStatusWarnable], false⟩

/-- noDERPHomeWarnable is a Warnable that warns the user that Tailscale does
not have a home DERP. -/
def noDERPHomeWarnable : Warnable := Register
  ⟨"no-derp-home", "No home relay server", SeverityHigh,
    StaticMessage "Tailscale could not connect to any relay server. Check your Internet connection.",
    [NetworkStatusWarnable], false⟩

/-- noDERPConnectionWarnable is a Warnable that warns the user that Tailscale
could not connect to a specific DERP server. -/
def noDERPConnectionWarnable : Warnable := Register
  ⟨"no-derp-connection", "Relay server unavailable", SeverityHigh,
    fun args =>
      if argLookup args ArgDERPRegionName ≠ "" then
        "Tailscale could not connect to the '" ++ argLookup args ArgDERPRegionName ++
        "' relay server. Your Internet connection might be down, or the server might be temporarily unavailable."
      else
        "Tailscale could not connect to the relay server with ID '" ++ argLookup args ArgDERPRegionID ++
        "'. Your Internet connection might be down, or the server might be temporarily unavailable.",
    [NetworkStatusWarnable], false⟩

/-- derpTimeoutWarnable is a Warnable that warns the user that Tailscale has
not heard from the home DERP region for a while. -/
def derpTimeoutWarnable : Warnable := Register
  ⟨"derp-timed-out", "Relay server timed out", SeverityMedium,
    fun args =>
      if argLookup args ArgDERPRegionName ≠ "" then
        "Tailscale hasn't heard from the '" ++ argLookup args ArgDERPRegionName ++
        "' relay server in " ++ argLookup args ArgDuration ++
        ". The server might be temporarily unavailable, or your Internet connection might be down."
      else
        "Tailscale hasn't heard from the home relay server (region ID '" ++ argLookup args ArgDERPRegionID ++
        "') in " ++ argLookup args ArgDuration ++
        ". The server might be temporarily unavailable, or your Internet connection might be down.",
    [NetworkStatusWarnable], false⟩

/-- derpRegionErrorWarnable is a Warnable that warns the user that a DERP
region is reporting an issue. -/
def derpRegionErrorWarnable : Warnable := Register
  ⟨"derp-region-error", "Relay server error", SeverityMedium,
    fun args =>
      "The relay server #" ++ argLookup args ArgDERPRegionID ++
      " is reporting an issue: " ++ argLookup args ArgError,
    [NetworkStatusWarnable], false⟩

/-- noUDP4BindWarnable is a Warnable that warns the user that Tailscale could
not listen for incoming UDP connections. -/
def noUDP4BindWarnable : Warnable := Register
  ⟨"no-udp4-bind", "Incoming connections may fail", SeverityHigh,
    StaticMessage "Tailscale couldn't listen for incoming UDP connections.",
    [NetworkStatusWarnable], true⟩

/-- mapResponseTimeoutWarnable is a Warnable that warns the user that
Tailscale has not received a network map from the coordination server in a
while. -/
def mapResponseTimeoutWarnable : Warnable := Register
  ⟨"mapresponse-timeout", "Network map response timeout", SeverityMedium,
    fun args =>
      "Tailscale hasn't received a network map from the coordination server in " ++
      argLookup args ArgDuration ++ ".",
    [NetworkStatusWarnable], false⟩

/-- tlsConnectionFailedWarnable is a Warnable that warns the user that
Tailscale could not establish an encrypted connection with a server. -/
def tlsConnectionFailedWarnable : Warnable := Register
  ⟨"tls-connection-failed", "Encrypted connection failed", SeverityMedium,
    fun args =>
      "Tailscale could not establish an encrypted connection with '" ++
      goQuote (argLookup args ArgServerName) ++ "': " ++ argLookup args ArgError,
    [NetworkStatusWarnable], false⟩

/-- magicsockReceiveFuncWarnable is a Warnable that warns the user that one
of the Magicsock functions is not running. -/
def magicsockReceiveFuncWarnable : Warnable := Register
  ⟨"magicsock-receive-func-error", "MagicSock function not running", SeverityMedium,
    fun args =>
      "The MagicSock function " ++ argLookup args ArgMagicsockFunctionName ++
      " is not running. You might experience connectivity issues.",
    [], false⟩

/-- testWarnable is a Warnable that is used within the package for testing
purposes only. -/
def testWarnable : Warnable := Register
  ⟨"test-warnable", "Test warnable", SeverityLow,
    fun args => argLookup args ArgError,
    [], false⟩

/-- applyDiskConfigWarnable is a Warnable that warns the user that there was
an error applying the envknob config stored on disk. -/
def applyDiskConfigWarnable : Warnable := Register
  ⟨"apply-disk-config", "Could not apply configuration", SeverityMedium,
    fun args =>
      "An error occurred applying the Tailscale envknob configuration stored on disk: " ++
      argLookup args ArgError,
    [], false⟩

/-- controlHealthWarnable is a Warnable that warns the user that the
coordination server is reporting an health issue. -/
def controlHealthWarnable : Warnable := Register
  ⟨"control-health", "Coordination server reports an issue", SeverityMedium,
    fun args =>
      "The coordination server is reporting an health issue: " ++ argLookup args ArgError,
    [], false⟩

/-- The warnable catalog: every package-level `Register` call of
`warnings.go`, in registration (source) order. -/
def catalog : List Warnable :=
  [updateAvailableWarnable, securityUpdateAvailableWarnable, unstableWarnable,
   NetworkStatusWarnable, IPNStateWarnable, localLogWarnable,
   LoginStateWarnable, notInMapPollWarnable, noDERPHomeWarnable,
   noDERPConnectionWarnable, derpTimeoutWarnable, derpRegionErrorWarnable,
   noUDP4BindWarnable, mapResponseTimeoutWarnable, tlsConnectionFailedWarnable,
   magicsockReceiveFuncWarnable, testWarnable, applyDiskConfigWarnable,
   controlHealthWarnable]

/-- Lexicographic less-or-equal comparison of two strings given as character
lists (the ascending `Code` order used by the suppression evaluator's sort). -/
def strLeb : List Char → List Char → Bool
  | [], _ => true
  | _ :: _, [] => false
  | c :: cs, d :: ds =>
    if c.toNat < d.toNat then true
    else if d.toNat < c.toNat then false
    else strLeb cs ds

/-- Totality of the lexicographic string comparison. -/
theorem strLeb_total : ∀ xs ys, strLeb xs ys = true ∨ strLeb ys xs = true
  | [], _ => Or.inl rfl
  | _ :: _, [] => Or.inr rfl
  | c :: cs, d :: ds => by
    simp only [strLeb]
    split_ifs <;>
      first
        | exact Or.inl rfl
        | exact Or.inr rfl
        | omega
        | exact strLeb_total cs ds

/-- Transitivity of the lexicographic string comparison. -/
theorem strLeb_trans : ∀ xs ys zs, strLeb xs ys = true → strLeb ys zs = true →
    strLeb xs zs = true
  | [], _, _, _, _ => rfl
  | _ :: _, [], _, h1, _ => by simp [strLeb] at h1
  | _ :: _, _ :: _, [], _, h2 => by simp [strLeb] at h2
  | c :: cs, d :: ds, e :: es, h1, h2 => by
    simp only [strLeb] at h1 h2 ⊢
    split_ifs at h1 h2 ⊢ <;>
      first
        | rfl
        | omega
        | exact strLeb_trans cs ds es h1 h2

/-- The order in which the suppression evaluator emits visible warnables:
severity descending first, `Code` ascending among equal severities. -/
def warnLEb (a b : Warnable) : Bool :=
  if sevRank b.Severity < sevRank a.Severity then true
  else if sevRank a.Severity < sevRank b.Severity then false
  else strLeb a.Code.data b.Code.data

/-- Propositional form of `warnLEb`, used as the sorting relation. -/
def warnLE (a b : Warnable) : Prop := warnLEb a b = true

instance : DecidableRel warnLE := fun a b => Bool.decEq (warnLEb a b) true

/-- Characterisation of `warnLE`: severity strictly greater, or severity
equal and `Code` lexicographically less-or-equal. -/
theorem warnLE_iff (a b : Warnable) : warnLE a b ↔
    sevRank b.Severity < sevRank a.Severity ∨
    (sevRank a.Severity = sevRank b.Severity ∧
      strLeb a.Code.data b.Code.data = true) := by
  unfold warnLE warnLEb
  split_ifs with h1 h2
  · simp [h1]
  · simp only [Bool.false_eq_true, false_iff]
    rintro (h | ⟨h, _⟩) <;> omega
  · have h : sevRank a.Severity = sevRank b.Severity := by omega
    simp [h]

instance : IsTotal Warnable warnLE :=
  ⟨fun a b => by
    rw [warnLE_iff, warnLE_iff]
    rcases Nat.lt_trichotomy (sevRank a.Severity) (sevRank b.Severity) with h | h | h
    · exact Or.inr (Or.inl h)
    · rcases strLeb_total a.Code.data b.Code.data with hs | hs
      · exact Or.inl (Or.inr ⟨h, hs⟩)
      · exact Or.inr (Or.inr ⟨h.symm, hs⟩)
    · exact Or.inl (Or.inl h)⟩

instance : IsTrans Warnable warnLE :=
  ⟨fun a b c hab hbc => by
    rw [warnLE_iff] at hab hbc ⊢
    rcases hab with h1 | ⟨h1, s1⟩ <;> rcases hbc with h2 | ⟨h2, s2⟩
    · exact Or.inl (by omega)
    · exact Or.inl (by omega)
    · exact Or.inl (by omega)
    · exact Or.inr ⟨by omega, strLeb_trans _ _ _ s1 s2⟩⟩

/-- Modelled from the spec: an active-warning record of the Warning State
Store (the engine is not under `src/`): the warnable's code, the args
snapshot, and the activation timestamp. -/
structure ActiveRecord where
  code : String
  args : Args
  time : Nat
deriving DecidableEq, Repr

/-- Modelled from the spec: `setUnhealthy(handle, args)` inserts or
overwrites the active record for this warnable with the given arguments and
the current time. -/
def setUnhealthy (w : Warnable) (args : Args) (t : Nat)
    (s : List ActiveRecord) : List ActiveRecord :=
  ⟨w.Code, args, t⟩ :: s.filter (fun r => r.code != w.Code)

/-- Modelled from the spec: `setHealthy(handle)` removes the active record if
present and is a no-op otherwise. -/
def setHealthy (w : Warnable) (s : List ActiveRecord) : List ActiveRecord :=
  s.filter (fun r => r.code != w.Code)

/-- Modelled from the spec: whether the warnable with the given code is
present in the raw active set. -/
def isActive (s : List ActiveRecord) (code : String) : Bool :=
  s.any (fun r => r.code == code)

/-- Modelled from the spec: a warnable present in the active set is
suppressed if at least one warnable in its `DependsOn` is also present in
the active set (direct dependencies only). -/
def suppressed (s : List ActiveRecord) (w : Warnable) : Bool :=
  w.DependsOn.any (fun d => isActive s d.Code)

/-- Modelled from the spec: `activeWarnings()` returns the visible subset of
the catalog — active and not suppressed — sorted by severity descending and
then by `Code` ascending. -/
def activeWarnings (s : List ActiveRecord) : List Warnable :=
  List.insertionSort warnLE
    (catalog.filter (fun w => isActive s w.Code && !suppressed s w))

/-- Maximum severity of a list of warnables, `none` when the list is empty
(the explicit healthy value of the severity aggregator). -/
def maxSevOpt : List Warnable → Option Severity
  | [] => none
  | w :: ws =>
    some (match maxSevOpt ws with
      | none => w.Severity
      | some m => if sevRank w.Severity ≤ sevRank m then m else w.Severity)

/-- Modelled from the spec: `overallSeverity()` is the maximum severity among
the visible set, or the explicit healthy value `none` when it is empty. -/
def overallSeverity (s : List ActiveRecord) : Option Severity :=
  maxSevOpt (activeWarnings s)

/-- Modelled from the spec: `connectivityImpacted()` is true if any visible
warning has `ImpactsConnectivity = true`. -/
def connectivityImpacted (s : List ActiveRecord) : Bool :=
  (activeWarnings s).any (fun w => w.ImpactsConnectivity)

/-- The dependency edge relation declared by the catalog: `depRel a b` holds
when `b` occurs in `a.DependsOn`. -/
def depRel (a b : Warnable) : Prop := b ∈ a.DependsOn

/-- Membership in the catalog, spelled out entry by entry. -/
theorem mem_catalog_iff (w : Warnable) : w ∈ catalog ↔
    w = updateAvailableWarnable ∨ w = securityUpdateAvailableWarnable ∨
    w = unstableWarnable ∨ w = NetworkStatusWarnable ∨ w = IPNStateWarnable ∨
    w = localLogWarnable ∨ w = LoginStateWarnable ∨ w = notInMapPollWarnable ∨
    w = noDERPHomeWarnable ∨ w = noDERPConnectionWarnable ∨
    w = derpTimeoutWarnable ∨ w = derpRegionErrorWarnable ∨
    w = noUDP4BindWarnable ∨ w = mapResponseTimeoutWarnable ∨
    w = tlsConnectionFailedWarnable ∨ w = magicsockReceiveFuncWarnable ∨
    w = testWarnable ∨ w = applyDiskConfigWarnable ∨ w = controlHealthWarnable := by
  simp [catalog]

/-- Every dependency declared anywhere in the catalog is
`NetworkStatusWarnable`. -/
theorem deps_subset : ∀ w ∈ catalog, ∀ x ∈ w.DependsOn, x = NetworkStatusWarnable := by
  intro w hw x hx
  rw [mem_catalog_iff] at hw
  rcases hw with rfl | rfl | rfl | rfl | rfl | rfl | rfl | rfl | rfl | rfl | rfl | rfl | rfl | rfl | rfl | rfl | rfl | rfl | rfl <;>
    simp_all [updateAvailableWarnable, securityUpdateAvailableWarnable,
      unstableWarnable, NetworkStatusWarnable, IPNStateWarnable,
      localLogWarnable, LoginStateWarnable, notInMapPollWarnable,
      noDERPHomeWarnable, noDERPConnectionWarnable, derpTimeoutWarnable,
      derpRegionErrorWarnable, noUDP4BindWarnable, mapResponseTimeoutWarnable,
      tlsConnectionFailedWarnable, magicsockReceiveFuncWarnable, testWarnable,
      applyDiskConfigWarnable, controlHealthWarnable, Register,
      Warnable.DependsOn]

/-- No dependency edge leaves `NetworkStatusWarnable`: its `DependsOn` list
is empty. -/
theorem nsw_edge_false (v : Warnable) : ¬ depRel NetworkStatusWarnable v := by
  simp [depRel, NetworkStatusWarnable, Register, Warnable.DependsOn]

/-- No dependency path (of any length) leaves `NetworkStatusWarnable`. -/
theorem not_transGen_from_nsw (v : Warnable) :
    ¬ Relation.TransGen depRel NetworkStatusWarnable v := by
  intro h
  induction h with
  | single h1 => exact nsw_edge_false _ h1
  | tail h1 h2 ih => exact ih

/-- Any warnable reachable from a catalog member along dependency edges is
`NetworkStatusWarnable`. -/
theorem transGen_dep_eq_nsw :
    ∀ w ∈ catalog, ∀ v, Relation.TransGen depRel w v → v = NetworkStatusWarnable := by
  intro w hw v h
  induction h with
  | single h1 => exact deps_subset w hw _ h1
  | tail h1 h2 ih => exact absurd (ih ▸ h2) (nsw_edge_false _)

/-- C1: rendering the warnable with Code "login-state" with args mapping
error-text to "token expired" produces a string containing "token expired",
and rendering it with empty args produces exactly the no-error variant
"You are logged out.". -/
theorem loginState_rendering :
    (∃ pre post : String,
      LoginStateWarnable.Text [(ArgError, "token expired")] =
        pre ++ "token expired" ++ post) ∧
    LoginStateWarnable.Text [] = "You are logged out." :=
  ⟨⟨"You are logged out. The last login error was: ", "", rfl⟩, rfl⟩

/-- C2: the `Code` field is unique across the catalog: any two distinct
registered warnable definitions have different Code strings. -/
theorem catalog_codes_unique : ∀ i j : Fin catalog.length, i ≠ j →
    (catalog.get i).Code ≠ (catalog.get j).Code := by decide

/-- Concrete instantiation of `catalog_codes_unique` at the first two
catalog entries. -/
theorem catalog_codes_unique_witness :
    (⟨0, by decide⟩ : Fin catalog.length) ≠ (⟨1, by decide⟩ : Fin catalog.length) ∧
    (catalog.get ⟨0, by decide⟩).Code ≠ (catalog.get ⟨1, by decide⟩).Code :=
  ⟨by decide, catalog_codes_unique ⟨0, by decide⟩ ⟨1, by decide⟩ (by decide)⟩

/-- C3: the dependency relation declared by the catalog's DependsOn fields is
acyclic: no registered warnable reaches itself along a nonempty chain of
dependency edges. -/
theorem catalog_dependsOn_acyclic : ∀ w ∈ catalog, ¬ Relation.TransGen depRel w w := by
  intro w hw h
  have hnsw := transGen_dep_eq_nsw w hw w h
  subst hnsw
  exact not_transGen_from_nsw _ h

/-- Concrete instantiation of `catalog_dependsOn_acyclic` at
`NetworkStatusWarnable`. -/
theorem catalog_dependsOn_acyclic_witness :
    NetworkStatusWarnable ∈ catalog ∧
    ¬ Relation.TransGen depRel NetworkStatusWarnable NetworkStatusWarnable :=
  ⟨by simp [catalog], catalog_dependsOn_acyclic NetworkStatusWarnable (by simp [catalog])⟩

/-- Every catalog text function reads its arguments only through Go map
lookup, so rendering depends only on the lookup view of the args. -/
theorem text_respects_lookup : ∀ w ∈ catalog, ∀ a b : Args,
    (∀ k, argLookup a k = argLookup b k) → w.Text a = w.Text b := by
  intro w hw a b h
  rw [mem_catalog_iff] at hw
  rcases hw with rfl | rfl | rfl | rfl | rfl | rfl | rfl | rfl | rfl | rfl | rfl | rfl | rfl | rfl | rfl | rfl | rfl | rfl | rfl <;>
    simp only [updateAvailableWarnable, securityUpdateAvailableWarnable,
      unstableWarnable, NetworkStatusWarnable, IPNStateWarnable,
      localLogWarnable, LoginStateWarnable, notInMapPollWarnable,
      noDERPHomeWarnable, noDERPConnectionWarnable, derpTimeoutWarnable,
      derpRegionErrorWarnable, noUDP4BindWarnable, mapResponseTimeoutWarnable,
      tlsConnectionFailedWarnable, magicsockReceiveFuncWarnable, testWarnable,
      applyDiskConfigWarnable, controlHealthWarnable, Register,
      Warnable.Text, StaticMessage, h]

/-- C4: rendering is total and an absent key is substituted as the empty
string: for every catalog warnable, rendering with an args mapping missing a
key equals rendering with that key explicitly bound to the empty string (a
rendered string is always produced; the text functions are total by
construction). -/
theorem rendering_missing_key_default :
    ∀ w ∈ catalog, ∀ (args : Args) (k : String),
      List.lookup k args = none →
      w.Text args = w.Text ((k, "") :: args) := by
  intro w hw args k h
  apply text_respects_lookup w hw
  intro k2
  unfold argLookup
  by_cases hk : k2 = k
  · subst hk
    simp [List.lookup, h]
  · have hb : (k2 == k) = false := by simp [hk]
    simp [List.lookup, hb]

/-- Concrete instantiation of `rendering_missing_key_default` at
`LoginStateWarnable` with the error-text key absent. -/
theorem rendering_missing_key_default_witness :
    LoginStateWarnable ∈ catalog ∧ List.lookup "error-text" ([] : Args) = none ∧
    LoginStateWarnable.Text [] = LoginStateWarnable.Text [("error-text", "")] :=
  ⟨by simp [catalog], rfl,
   rendering_missing_key_default LoginStateWarnable (by simp [catalog]) [] "error-text" rfl⟩

/-- C5: direct-dependency suppression on the catalog: with both
`NetworkStatusWarnable` and `noDERPHomeWarnable` active, only
`NetworkStatusWarnable` is visible; after clearing `NetworkStatusWarnable`,
only `noDERPHomeWarnable` is visible. -/
theorem scenario_direct_suppression :
    activeWarnings (setUnhealthy noDERPHomeWarnable [] 1
        (setUnhealthy NetworkStatusWarnable [] 0 [])) = [NetworkStatusWarnable] ∧
    activeWarnings (setHealthy NetworkStatusWarnable
        (setUnhealthy noDERPHomeWarnable [] 1
          (setUnhealthy NetworkStatusWarnable [] 0 []))) = [noDERPHomeWarnable] :=
  ⟨rfl, rfl⟩

/-- The maximum-severity computation returns `none` exactly on the empty
list. -/
theorem maxSevOpt_eq_none_iff (l : List Warnable) : maxSevOpt l = none ↔ l = [] := by
  cases l <;> simp [maxSevOpt]

/-- The maximum severity returned by `maxSevOpt` is attained by some element
of the list. -/
theorem maxSevOpt_attained : ∀ (l : List Warnable) (m : Severity),
    maxSevOpt l = some m → ∃ w ∈ l, w.Severity = m := by
  intro l
  induction l with
  | nil => intro m h; simp [maxSevOpt] at h
  | cons w ws ih =>
    intro m h
    simp only [maxSevOpt] at h
    cases hm : maxSevOpt ws with
    | none =>
      rw [hm] at h
      simp only [Option.some.injEq] at h
      exact ⟨w, List.mem_cons_self w ws, h⟩
    | some m2 =>
      rw [hm] at h
      simp only [Option.some.injEq] at h
      by_cases hle : sevRank w.Severity ≤ sevRank m2
      · rw [if_pos hle] at h
        obtain ⟨v, hv, hveq⟩ := ih m2 hm
        exact ⟨v, List.mem_cons_of_mem _ hv, by rw [hveq, h]⟩
      · rw [if_neg hle] at h
        exact ⟨w, List.mem_cons_self w ws, h⟩

/-- The value returned by `maxSevOpt` bounds the severity rank of every
element of the list. -/
theorem maxSevOpt_bound : ∀ (l : List Warnable) (m : Severity),
    maxSevOpt l = some m → ∀ w ∈ l, sevRank w.Severity ≤ sevRank m := by
  intro l
  induction l with
  | nil => intro m _ v hv; simp at hv
  | cons w ws ih =>
    intro m h v hv
    simp only [maxSevOpt] at h
    cases hm : maxSevOpt ws with
    | none =>
      rw [hm] at h
      simp only [Option.some.injEq] at h
      have hws : ws = [] := (maxSevOpt_eq_none_iff ws).mp hm
      subst hws
      simp only [List.mem_singleton] at hv
      subst hv
      rw [h]
    | some m2 =>
      rw [hm] at h
      simp only [Option.some.injEq] at h
      rcases List.mem_cons.mp hv with rfl | hv2
      · by_cases hle : sevRank v.Severity ≤ sevRank m2
        · rw [if_pos hle] at h
          rw [← h]; exact hle
        · rw [if_neg hle] at h
          rw [← h]
      · have hb := ih m2 hm v hv2
        by_cases hle : sevRank w.Severity ≤ sevRank m2
        · rw [if_pos hle] at h; rw [← h]; exact hb
        · rw [if_neg hle] at h; rw [← h]; omega

/-- C6: for every state of the engine, `overallSeverity` is `none` exactly
when `activeWarnings` is empty, otherwise it equals the maximum severity
among the entries of `activeWarnings`; and `connectivityImpacted` is true
iff some visible entry has `ImpactsConnectivity = true`. -/
theorem overall_severity_aggregates (s : List ActiveRecord) :
    (overallSeverity s = none ↔ activeWarnings s = []) ∧
    (∀ m : Severity, overallSeverity s = some m →
      (∃ w ∈ activeWarnings s, w.Severity = m) ∧
      ∀ w ∈ activeWarnings s, sevRank w.Severity ≤ sevRank m) ∧
    (connectivityImpacted s = true ↔
      ∃ w ∈ activeWarnings s, w.ImpactsConnectivity = true) := by
  refine ⟨maxSevOpt_eq_none_iff _,
    fun m hm => ⟨maxSevOpt_attained _ m hm, maxSevOpt_bound _ m hm⟩, ?_⟩
  unfold connectivityImpacted
  simp [List.any_eq_true]

/-- Concrete instantiation of `overall_severity_aggregates` on the state with
only `NetworkStatusWarnable` active. -/
theorem overall_severity_aggregates_witness :
    (∃ w ∈ activeWarnings (setUnhealthy NetworkStatusWarnable [] 0 []),
      w.Severity = Severity.high) ∧
    ∀ w ∈ activeWarnings (setUnhealthy NetworkStatusWarnable [] 0 []),
      sevRank w.Severity ≤ sevRank Severity.high :=
  (overall_severity_aggregates (setUnhealthy NetworkStatusWarnable [] 0 [])).2.1
    Severity.high rfl

/-- C7: the sequence returned by `activeWarnings` is sorted by severity
descending and, among entries of equal severity, by `Code` ascending; and
repeated calls with no intervening mutation return the identical sequence
(the query is a pure function of the state). -/
theorem active_warnings_sorted (s : List ActiveRecord) :
    List.Pairwise (fun a b : Warnable =>
      sevRank b.Severity < sevRank a.Severity ∨
      (sevRank a.Severity = sevRank b.Severity ∧
        strLeb a.Code.data b.Code.data = true)) (activeWarnings s) ∧
    activeWarnings s = activeWarnings s := by
  refine ⟨?_, rfl⟩
  have h := List.sorted_insertionSort warnLE
    (catalog.filter (fun w => isActive s w.Code && !suppressed s w))
  unfold activeWarnings
  exact List.Pairwise.imp (fun hab => (warnLE_iff _ _).mp hab) h

/-- Overwriting an active record twice is the same as overwriting it once
with the later args and timestamp. -/
theorem setUnhealthy_absorb (w : Warnable) (a : Args) (t1 t2 : Nat)
    (s : List ActiveRecord) :
    setUnhealthy w a t2 (setUnhealthy w a t1 s) = setUnhealthy w a t2 s := by
  unfold setUnhealthy
  simp [List.filter_cons, List.filter_filter]

/-- C8: `setUnhealthy` is idempotent: a second consecutive call leaves the
active set size unchanged (no duplicate entry for the warnable), the stored
record for the warnable carries the latest args and timestamp, and records
of every other warnable are untouched. -/
theorem setUnhealthy_idempotent (w : Warnable) (a : Args) (t1 t2 : Nat)
    (s : List ActiveRecord) :
    (setUnhealthy w a t2 (setUnhealthy w a t1 s)).length =
      (setUnhealthy w a t1 s).length ∧
    (setUnhealthy w a t2 (setUnhealthy w a t1 s)).filter
        (fun r => r.code == w.Code) = [⟨w.Code, a, t2⟩] ∧
    ∀ r : ActiveRecord, r.code ≠ w.Code →
      ((r ∈ setUnhealthy w a t2 (setUnhealthy w a t1 s)) ↔
        r ∈ setUnhealthy w a t1 s) := by
  rw [setUnhealthy_absorb]
  refine ⟨?_, ?_, ?_⟩
  · unfold setUnhealthy
    simp
  · unfold setUnhealthy
    simp only [List.filter_cons, beq_self_eq_true, if_pos]
    rw [List.filter_eq_nil_iff.mpr]
    intro r hr
    have hp := List.of_mem_filter hr
    simp only [bne_iff_ne, ne_eq] at hp
    simp [hp]
  · intro r hr
    have h2 : r ≠ (⟨w.Code, a, t2⟩ : ActiveRecord) := fun he => hr (by rw [he])
    have h1 : r ≠ (⟨w.Code, a, t1⟩ : ActiveRecord) := fun he => hr (by rw [he])
    unfold setUnhealthy
    simp [List.mem_cons, h1, h2]

/-- Concrete instantiation of `setUnhealthy_idempotent`: double activation of
`testWarnable` over a one-record state. -/
theorem setUnhealthy_idempotent_witness :
    (setUnhealthy testWarnable [] 1
        (setUnhealthy testWarnable [] 0 [⟨"other", [], 5⟩])).length =
      (setUnhealthy testWarnable [] 0 [⟨"other", [], 5⟩]).length ∧
    ((⟨"other", [], 5⟩ : ActiveRecord) ∈
        setUnhealthy testWarnable [] 1
          (setUnhealthy testWarnable [] 0 [⟨"other", [], 5⟩]) ↔
      (⟨"other", [], 5⟩ : ActiveRecord) ∈
        setUnhealthy testWarnable [] 0 [⟨"other", [], 5⟩]) :=
  ⟨(setUnhealthy_idempotent testWarnable [] 0 1 [⟨"other", [], 5⟩]).1,
   (setUnhealthy_idempotent testWarnable [] 0 1 [⟨"other", [], 5⟩]).2.2
     ⟨"other", [], 5⟩ (by decide)⟩

/-- C9: the warnable with Code "test-warnable" returns the error-text arg
verbatim, so rendering it with an args mapping lacking that key yields
exactly the empty string. -/
theorem testWarnable_empty_render (args : Args)
    (h : List.lookup ArgError args = none) : testWarnable.Text args = "" := by
  simp [testWarnable, Register, Warnable.Text, argLookup, h]

/-- Concrete instantiation of `testWarnable_empty_render` at the empty args
mapping. -/
theorem testWarnable_empty_render_witness :
    List.lookup ArgError ([] : Args) = none ∧ testWarnable.Text [] = "" :=
  ⟨rfl, testWarnable_empty_render [] rfl⟩

/-- C10: the catalog's dependency graph has depth one: every DependsOn list
is empty or exactly `[NetworkStatusWarnable]`, `NetworkStatusWarnable` has
no dependencies, and consequently direct-dependency suppression coincides
with transitive-closure suppression on every active set. -/
theorem depth_one_dependency_graph :
    (∀ w ∈ catalog, w.DependsOn = [] ∨ w.DependsOn = [NetworkStatusWarnable]) ∧
    NetworkStatusWarnable.DependsOn = [] ∧
    (∀ (s : List ActiveRecord) (w : Warnable), w ∈ catalog →
      (suppressed s w = true ↔
        ∃ v, Relation.TransGen depRel w v ∧ isActive s v.Code = true)) := by
  refine ⟨?_, rfl, ?_⟩
  · intro w hw
    rw [mem_catalog_iff] at hw
    rcases hw with rfl | rfl | rfl | rfl | rfl | rfl | rfl | rfl | rfl | rfl | rfl | rfl | rfl | rfl | rfl | rfl | rfl | rfl | rfl <;>
      first
        | exact Or.inl rfl
        | exact Or.inr rfl
  · intro s w hw
    constructor
    · intro hsup
      unfold suppressed at hsup
      rw [List.any_eq_true] at hsup
      obtain ⟨d, hd, hact⟩ := hsup
      exact ⟨d, Relation.TransGen.single hd, hact⟩
    · rintro ⟨v, htg, hact⟩
      unfold suppressed
      rw [List.any_eq_true]
      cases htg with
      | single h1 => exact ⟨v, h1, hact⟩
      | tail h1 h2 =>
        have hb := transGen_dep_eq_nsw w hw _ h1
        exact absurd (hb ▸ h2) (nsw_edge_false _)

/-- Concrete instantiation of `depth_one_dependency_graph`: suppression of
`noDERPHomeWarnable` under an active `NetworkStatusWarnable` record. -/
theorem depth_one_dependency_graph_witness :
    noDERPHomeWarnable ∈ catalog ∧
    (suppressed [⟨"network-status", [], 0⟩] noDERPHomeWarnable = true ↔
      ∃ v, Relation.TransGen depRel noDERPHomeWarnable v ∧
        isActive [⟨"network-status", [], 0⟩] v.Code = true) :=
  ⟨by simp [catalog],
   depth_one_dependency_graph.2.2 [⟨"network-status", [], 0⟩]
     noDERPHomeWarnable (by simp [catalog])⟩
